import Mathlib

/-!
Verification development for the stock-aggregation core of the investool
repository (package `models`, file embedding `NewStock`, the Buffett scoring
pipeline, and the stock-list sorting).

Modelling conventions:
* Go `float64` is modelled by `GoFloat`: an exact rational together with the
  IEEE special values NaN, +Inf and -Inf.  Arithmetic on the rational part is
  exact (no rounding, no overflow); the special values propagate following
  IEEE-754 (`Inf * 0 = NaN`, comparisons with NaN are false, finite/0 gives a
  signed infinity, 0/0 gives NaN, ...).  Decimal literals of the source
  (0.7, 0.8, 7.5, 50.0, ...) are taken at their exact decimal value.
* Scoring arithmetic (`calculateBuffettScore` and friends) only ever combines
  finite data, so it is modelled directly over `ℚ`; there `x / 0 = 0` is the
  Lean convention, noted at each division site.
* Upstream fetches (`datacenter.EastMoney.Query...`, `datacenter.Eniu...`,
  `datacenter.Zszx...`) are external collaborators: each outcome is an
  `Option` input (`none` = the fetch returned an error).
-/

/-- Model of a Go `float64` value: an exact rational, or one of the IEEE
special values (NaN, +Inf, -Inf).  Rational arithmetic is exact; the special
values follow IEEE-754 propagation rules. -/
inductive GoFloat where
  | fin (q : ℚ)
  | pinf
  | ninf
  | nan
deriving DecidableEq

namespace GoFloat

/-- Source `math.IsNaN`. -/
def isNaN : GoFloat → Bool
  | nan => true
  | _ => false

/-- Source `math.IsInf(x, 0)`: true for either infinity. -/
def isInf : GoFloat → Bool
  | pinf => true
  | ninf => true
  | _ => false

/-- Negation of a float. -/
def neg : GoFloat → GoFloat
  | fin q => fin (-q)
  | pinf => ninf
  | ninf => pinf
  | nan => nan

/-- IEEE addition (exact on the rational part). -/
def add : GoFloat → GoFloat → GoFloat
  | nan, _ => nan
  | _, nan => nan
  | fin a, fin b => fin (a + b)
  | fin _, pinf => pinf
  | fin _, ninf => ninf
  | pinf, fin _ => pinf
  | ninf, fin _ => ninf
  | pinf, pinf => pinf
  | pinf, ninf => nan
  | ninf, pinf => nan
  | ninf, ninf => ninf

/-- IEEE subtraction. -/
def sub (a b : GoFloat) : GoFloat := add a (neg b)

/-- IEEE multiplication (exact on the rational part; `Inf * 0 = NaN`). -/
def mul : GoFloat → GoFloat → GoFloat
  | nan, _ => nan
  | _, nan => nan
  | fin a, fin b => fin (a * b)
  | fin a, pinf => if 0 < a then pinf else if a < 0 then ninf else nan
  | fin a, ninf => if 0 < a then ninf else if a < 0 then pinf else nan
  | pinf, fin b => if 0 < b then pinf else if b < 0 then ninf else nan
  | ninf, fin b => if 0 < b then ninf else if b < 0 then pinf else nan
  | pinf, pinf => pinf
  | pinf, ninf => ninf
  | ninf, pinf => ninf
  | ninf, ninf => pinf

/-- IEEE division (exact on the rational part; `x/0` is a signed infinity for
`x ≠ 0` and NaN for `x = 0`; the model has a single zero, so the sign of the
infinity follows the sign of the numerator). -/
def div : GoFloat → GoFloat → GoFloat
  | nan, _ => nan
  | _, nan => nan
  | fin a, fin b =>
      if b = 0 then (if a = 0 then nan else if 0 < a then pinf else ninf)
      else fin (a / b)
  | fin _, pinf => fin 0
  | fin _, ninf => fin 0
  | pinf, fin b => if b < 0 then ninf else pinf
  | ninf, fin b => if b < 0 then pinf else ninf
  | pinf, pinf => nan
  | pinf, ninf => nan
  | ninf, pinf => nan
  | ninf, ninf => nan

/-- Go `<` on floats: any comparison with NaN is false. -/
def blt : GoFloat → GoFloat → Bool
  | nan, _ => false
  | _, nan => false
  | fin a, fin b => decide (a < b)
  | fin _, pinf => true
  | fin _, ninf => false
  | pinf, _ => false
  | ninf, ninf => false
  | ninf, _ => true

/-- Go `<=` on floats: any comparison with NaN is false. -/
def ble : GoFloat → GoFloat → Bool
  | nan, _ => false
  | _, nan => false
  | fin a, fin b => decide (a ≤ b)
  | fin _, pinf => true
  | fin _, ninf => false
  | pinf, pinf => true
  | pinf, _ => false
  | ninf, _ => true

/-- The rational payload of a finite value (0 on the special values). -/
def toRat : GoFloat → ℚ
  | fin q => q
  | _ => 0

/-- Finiteness predicate. -/
def isFinite : GoFloat → Bool
  | fin _ => true
  | _ => false

@[simp] theorem add_fin_fin (a b : ℚ) : add (fin a) (fin b) = fin (a + b) := rfl

@[simp] theorem neg_fin (a : ℚ) : neg (fin a) = fin (-a) := rfl

@[simp] theorem sub_fin_fin (a b : ℚ) : sub (fin a) (fin b) = fin (a - b) := by
  simp [sub, add, neg, sub_eq_add_neg]

@[simp] theorem mul_fin_fin (a b : ℚ) : mul (fin a) (fin b) = fin (a * b) := rfl

theorem div_fin_fin {b : ℚ} (a : ℚ) (hb : b ≠ 0) :
    div (fin a) (fin b) = fin (a / b) := by
  simp [div, hb]

@[simp] theorem blt_fin_fin (a b : ℚ) : blt (fin a) (fin b) = decide (a < b) := rfl

@[simp] theorem ble_fin_fin (a b : ℚ) : ble (fin a) (fin b) = decide (a ≤ b) := rfl

@[simp] theorem isNaN_fin (a : ℚ) : isNaN (fin a) = false := rfl

@[simp] theorem isInf_fin (a : ℚ) : isInf (fin a) = false := rfl

end GoFloat

/-! ## Data model

The upstream record types live in the `eastmoney` / `eniu` / `zszx` packages
(outside this repository's core file); only the fields the core reads are
modelled.  Section types the core never inspects (company profile, ratings,
profit forecasts, value assessment, holders, money inflows) are modelled as
opaque payloads (`String` / lists). -/

/-- One entry of the historical fundamentals (`eastmoney.HistoricalFinaMainData`
element).  Only the fields read by the core: the reporting year, whether it is
the annual (`FinaReportTypeYear`) report, basic EPS (`Epsjb`), return on
equity (`Roejq`), net profit, debt-to-asset percentage (`Zcfzl`) and the
organisation type. -/
structure FinaReport where
  year : Int
  isAnnual : Bool
  epsjb : ℚ
  roejq : ℚ
  netProfit : ℚ
  zcfzl : ℚ
  orgType : String
deriving DecidableEq

/-- One entry of the historical cash-flow list (`eastmoney.CashflowData`). -/
structure CashflowData where
  netcashOperate : ℚ
  netcashInvest : ℚ
  netcashFinance : ℚ
deriving DecidableEq

/-- One entry of the historical income-statement list
(`eastmoney.GincomeData`). -/
structure GincomeData where
  operateProfit : ℚ
  nonbusinessIncome : ℚ
  opinionType : String
deriving DecidableEq

/-- One entry of the financial-report publication date list. -/
structure PubDate where
  appointPublishDate : String
  actualPublishDate : String
  reportDate : String
deriving DecidableEq

/-- The base quote information (`eastmoney.StockInfo`); `NewPrice` is an
`interface{}` holding either a float or the string `"-"` when the market is
closed, modelled as an `Option`. -/
structure StockInfo where
  secucode : String
  securityNameAbbr : String
  pe : GoFloat
  netprofitGrowthrate3Y : GoFloat
  roeWeight : ℚ
  industry : String
  newPrice : Option ℚ
deriving DecidableEq

/-- Source `models.BuffettScore`: the ten sub-scores, the total and the textual
break-down. -/
structure BuffettScore where
  roeScore : ℚ := 0
  cashFlowScore : ℚ := 0
  profitGrowthScore : ℚ := 0
  debtRatioScore : ℚ := 0
  moatScore : ℚ := 0
  managementScore : ℚ := 0
  valuationScore : ℚ := 0
  totalScore : ℚ := 0
  scoreDescription : String := ""
  rdScore : ℚ := 0
  dividendScore : ℚ := 0
  repurchaseScore : ℚ := 0
deriving DecidableEq

/-- Source `models.Stock`: the aggregate record.  Field defaults are the Go zero
values (empty slices, empty strings, zero floats). -/
structure Stock where
  baseInfo : StockInfo
  historicalFinaMainData : List FinaReport := []
  valuationMap : List (String × String) := []
  historicalPEList : List ℚ := []
  rightPrice : GoFloat := GoFloat.fin 0
  priceSpace : GoFloat := GoFloat.fin 0
  lastYearRightPrice : GoFloat := GoFloat.fin 0
  historicalPrice : List ℚ := []
  historicalVolatility : ℚ := 0
  companyProfile : String := ""
  finaAppointPublishDate : String := ""
  finaActualPublishDate : String := ""
  finaReportDate : String := ""
  orgRatingList : List String := []
  profitPredictList : List String := []
  jzpg : String := ""
  peg : GoFloat := GoFloat.fin 0
  historicalGincomeList : List GincomeData := []
  byysValue : ℚ := 0
  finaReportOpinion : String := ""
  historicalCashflowList : List CashflowData := []
  netcashOperate : ℚ := 0
  netcashInvest : ℚ := 0
  netcashFinance : ℚ := 0
  netcashFree : ℚ := 0
  freeHoldersTop10 : List String := []
  mainMoneyNetInflows : List ℚ := []
  buffettScore : BuffettScore := {}
deriving DecidableEq

/-- Modelled from the spec: `HistoricalFinaMainData.ValueList(ctx, t, count,
FinaReportTypeYear)` (eastmoney package, not part of the core source file)
returns the chosen indicator of the most recent `count` annual reports; the
fundamentals history is ordered newest-first by reporting period. -/
def valueList (hist : List FinaReport) (f : FinaReport → ℚ) (count : Nat) : List ℚ :=
  ((hist.filter (fun r => r.isAnnual)).take count).map f

/-- Modelled from the spec: `HistoricalFinaMainData.GetReport(ctx, year,
FinaReportTypeYear)` (eastmoney package, not part of the core source file)
resolves the annual report of the given year, `nil` (`none`) when that year's
annual report is not in the history. -/
def getReport (hist : List FinaReport) (year : Int) : Option FinaReport :=
  hist.find? (fun r => r.isAnnual && r.year == year)

/-- Source `Stock.GetPrice`: the current price; when the market is closed
(`NewPrice` not a float) fall back to the last historical price, and to `-1`
when there is no price history. -/
def Stock.getPrice (s : Stock) : ℚ :=
  match s.baseInfo.newPrice with
  | some p => p
  | none =>
      if s.historicalPrice.length = 0 then -1
      else s.historicalPrice.getLastD 0

/-- Source `Stock.GetOrgType`: the organisation type of the newest fundamentals
entry, `""` when the history is empty. -/
def Stock.getOrgType (s : Stock) : String :=
  match s.historicalFinaMainData with
  | [] => ""
  | r :: _ => r.orgType

/-- The PEG computation at the top of `NewStock` (part_000 lines 146-172):
a growth rate of exactly 0 or a negative growth rate yields the sentinel -1;
otherwise PEG = PE / growth, replaced by -1 when the division result is NaN
or infinite. -/
def computePEG (pe growth : GoFloat) : GoFloat :=
  if growth = GoFloat.fin 0 then GoFloat.fin (-1)
  else if GoFloat.blt growth (GoFloat.fin 0) then GoFloat.fin (-1)
  else
    let peg := pe.div growth
    if peg.isNaN || peg.isInf then GoFloat.fin (-1) else peg

/-! ## Valuation estimator (NewStock, part_000 lines 201-290)

The first unit of work fetches the fundamentals history and the PE history
and then derives the "reasonable price".  The computation below mirrors the
Go locals one for one.  A dereference of a `nil` resolved report (Go would
panic) is modelled as an `Except.error`. -/

/-- Input of the valuation computation: the values NewStock has in scope at
part_000 line 223 (the eps window fetched via `ValueList`, the PE median from
`GetMidValue`, the revenue growth rates from
`GetAvgRevenueIncreasingRatioByYear`, the resolved year reports after the
nil fix, and the current price). -/
structure ValuationIn where
  epsHistory : List GoFloat
  peMidVal : GoFloat
  thisYearAvgRevGrowth : GoFloat
  lastYearAvgRevGrowth : GoFloat
  lastYearReport : Option FinaReport
  beforeLastYearReport : Option FinaReport
  price : GoFloat

/-- Output of the valuation computation: the three derived price fields. -/
structure ValuationOut where
  rightPrice : GoFloat
  priceSpace : GoFloat
  lastYearRightPrice : GoFloat
deriving DecidableEq

/-- The running sum `sum := 0.0; for _, eps := range epsHistory { sum += eps }`. -/
def sumGoFloat (l : List GoFloat) : GoFloat :=
  l.foldl GoFloat.add (GoFloat.fin 0)

/-- Step 1 (lines 225-239): the base EPS is the average of the (up to three)
fetched annual EPS values when at least three exist, otherwise the resolved
last-year report's EPS (a `nil` report there is a Go panic). -/
def baseEPSOf (epsHistory : List GoFloat) (lastYearReport : Option FinaReport) :
    Except String GoFloat :=
  if 3 ≤ epsHistory.length then
    .ok ((sumGoFloat epsHistory).div (GoFloat.fin epsHistory.length))
  else
    match lastYearReport with
    | some r => .ok (GoFloat.fin r.epsjb)
    | none => .error "nil pointer dereference"

/-- Step 2 (lines 241-247): cap the growth rate at 50 (values above 50 are
replaced by 50; everything else, including 0 and negative values, passes
through unmodified). -/
def adjustedGrowthOf (g : GoFloat) : GoFloat :=
  if GoFloat.blt (GoFloat.fin 50) g then GoFloat.fin 50 else g

/-- Step 3 (lines 249-259): the explosive-growth adjustment factor; `0.7` when
at least two EPS values exist and `(eps[0]-eps[1])/eps[1]*100 > 100`, else
`1.0`. -/
def explosiveAdjOf (epsHistory : List GoFloat) : GoFloat :=
  match epsHistory with
  | e0 :: e1 :: _ =>
      let lastYearGrowth := ((e0.sub e1).div e1).mul (GoFloat.fin 100)
      if GoFloat.blt (GoFloat.fin 100) lastYearGrowth then GoFloat.fin (7/10)
      else GoFloat.fin 1
  | _ => GoFloat.fin 1

/-- Step 4 (line 262): `RightPrice = peMidVal * (baseEPS * (1 +
adjustedGrowthRatio/100.0)) * explosiveGrowthAdjustment`, before the final
validity check. -/
def rawRightPriceOf (v : ValuationIn) : Except String GoFloat :=
  match baseEPSOf v.epsHistory v.lastYearReport with
  | .error e => .error e
  | .ok baseEPS =>
      .ok ((v.peMidVal.mul (baseEPS.mul ((GoFloat.fin 1).add
            ((adjustedGrowthOf v.thisYearAvgRevGrowth).div (GoFloat.fin 100))))).mul
          (explosiveAdjOf v.epsHistory))

/-- Line 263 / 286: `PriceSpace = (RightPrice - price) / price * 100`. -/
def priceSpaceOf (rightPrice price : GoFloat) : GoFloat :=
  ((rightPrice.sub price).div price).mul (GoFloat.fin 100)

/-- Step 5 (lines 266-272): the base EPS of the prior-year check price: the
average of `epsHistory[1]` and `epsHistory[2]` when at least three values
exist, otherwise the resolved before-last-year report's EPS. -/
def lastYearBaseEPSOf (epsHistory : List GoFloat)
    (beforeLastYearReport : Option FinaReport) : Except String GoFloat :=
  match epsHistory with
  | _ :: e1 :: e2 :: _ => .ok ((e1.add e2).div (GoFloat.fin 2))
  | _ =>
      match beforeLastYearReport with
      | some r => .ok (GoFloat.fin r.epsjb)
      | none => .error "nil pointer dereference"

/-- The whole valuation computation (part_000 lines 223-290): steps 1-5 plus
the step-6 validity check, which discards a NaN, infinite or non-positive
right price and falls back to `peMidVal * lastYearReport.Epsjb`. -/
def computeValuation (v : ValuationIn) : Except String ValuationOut :=
  match rawRightPriceOf v with
  | .error e => .error e
  | .ok rightPrice =>
      let priceSpace := priceSpaceOf rightPrice v.price
      match lastYearBaseEPSOf v.epsHistory v.beforeLastYearReport with
      | .error e => .error e
      | .ok lastYearBaseEPS =>
          let lastYearRightPrice := v.peMidVal.mul (lastYearBaseEPS.mul
            ((GoFloat.fin 1).add ((adjustedGrowthOf v.lastYearAvgRevGrowth).div
              (GoFloat.fin 100))))
          if rightPrice.isNaN || rightPrice.isInf || rightPrice.ble (GoFloat.fin 0) then
            match v.lastYearReport with
            | none => .error "nil pointer dereference"
            | some r =>
                let fallback := v.peMidVal.mul (GoFloat.fin r.epsjb)
                .ok ⟨fallback, priceSpaceOf fallback v.price, lastYearRightPrice⟩
          else
            .ok ⟨rightPrice, priceSpace, lastYearRightPrice⟩

/-! ## Aggregator (NewStock, part_000 lines 135-466)

The twelve concurrent units of work write disjoint field groups of the shared
`Stock` and join on a WaitGroup barrier before the score is computed; since
no two units touch the same field, the fan-out/fan-in is modelled as the
sequential composition of the twelve per-unit updates.  Every upstream fetch
outcome is an input (`none` = the query returned an error and the unit left
its fields at their zero values). -/

/-- Input of the first (chained) unit: the fundamentals fetch, the PE-list
fetch, the `GetMidValue` outcome, the outcomes of
`GetAvgRevenueIncreasingRatioByYear` per queried year, and the current
calendar year (`time.Now().Year()`). -/
structure Unit1In where
  fina : Option (List FinaReport)
  peList : Option (List ℚ)
  midPE : Option ℚ
  avgRevGrowthByYear : Int → ℚ
  thisYear : Int

/-- Fields owned by the first unit. -/
structure Unit1Out where
  historicalFinaMainData : List FinaReport := []
  historicalPEList : List ℚ := []
  rightPrice : GoFloat := GoFloat.fin 0
  priceSpace : GoFloat := GoFloat.fin 0
  lastYearRightPrice : GoFloat := GoFloat.fin 0

/-- The first unit (part_000 lines 176-291): fetch the fundamentals history
(an error or an empty history aborts the unit), store it, fetch the PE list,
store it, resolve the two most recent annual reports (shifting the window
back one year when last year's report is not yet published, lines 203-215),
take the PE median and run the valuation.  Each early `return` leaves the
not-yet-assigned fields at their zero values. -/
def unit1 (u : Unit1In) (price : GoFloat) : Except String Unit1Out :=
  match u.fina with
  | none => .ok {}
  | some hf =>
    if hf.length = 0 then .ok {}
    else
      match u.peList with
      | none => .ok { historicalFinaMainData := hf }
      | some peList =>
        let lastYearReport := getReport hf (u.thisYear - 1)
        let beforeLastYearReport := getReport hf (u.thisYear - 2)
        let thisYearAvgRevGrowth := u.avgRevGrowthByYear u.thisYear
        let lastYearAvgRevGrowth := u.avgRevGrowthByYear (u.thisYear - 1)
        let (lastYearReport, beforeLastYearReport,
             thisYearAvgRevGrowth, lastYearAvgRevGrowth) :=
          if lastYearReport.isNone then
            (beforeLastYearReport, getReport hf (u.thisYear - 3),
             u.avgRevGrowthByYear (u.thisYear - 1),
             u.avgRevGrowthByYear (u.thisYear - 2))
          else
            (lastYearReport, beforeLastYearReport,
             thisYearAvgRevGrowth, lastYearAvgRevGrowth)
        match u.midPE with
        | none => .ok { historicalFinaMainData := hf, historicalPEList := peList }
        | some peMidVal =>
          let epsHistory := (valueList hf FinaReport.epsjb 3).map GoFloat.fin
          match computeValuation ⟨epsHistory, GoFloat.fin peMidVal,
              GoFloat.fin thisYearAvgRevGrowth, GoFloat.fin lastYearAvgRevGrowth,
              lastYearReport, beforeLastYearReport, price⟩ with
          | .error e => .error e
          | .ok out =>
              .ok { historicalFinaMainData := hf, historicalPEList := peList,
                    rightPrice := out.rightPrice, priceSpace := out.priceSpace,
                    lastYearRightPrice := out.lastYearRightPrice }

/-- The per-provider outcomes of one `NewStock` invocation: the first unit's
inputs plus one `Option` per remaining fetch (`none` = that query errored;
`volatility` is the outcome of the `HistoricalVolatility` computation chained
after the price fetch). -/
structure NewStockIn where
  fina : Option (List FinaReport)
  peList : Option (List ℚ)
  midPE : Option ℚ
  avgRevGrowthByYear : Int → ℚ
  thisYear : Int
  valuationMap : Option (List (String × String))
  historicalPrice : Option (List ℚ)
  volatility : Option ℚ
  companyProfile : Option String
  finaPubDateList : Option (List PubDate)
  orgRatingList : Option (List String)
  profitPredictList : Option (List String)
  jzpg : Option String
  gincomeList : Option (List GincomeData)
  cashflowList : Option (List CashflowData)
  freeHolders : Option (List String)
  mainMoneyNetInflows : Option (List ℚ)

/-- Unit 2 (lines 293-303): the valuation map. -/
def applyValuationMap (o : Option (List (String × String))) (s : Stock) : Stock :=
  { s with valuationMap := o.getD s.valuationMap }

/-- Unit 3 (lines 305-323): the historical price, then the volatility chained
behind it (an error in either step leaves the remaining fields zero). -/
def applyHistoricalPrice (o : Option (List ℚ)) (vol : Option ℚ) (s : Stock) : Stock :=
  { s with historicalPrice := o.getD s.historicalPrice,
           historicalVolatility :=
             match o with
             | none => s.historicalVolatility
             | some _ => vol.getD s.historicalVolatility }

/-- Unit 4 (lines 325-335): the company profile. -/
def applyCompanyProfile (o : Option String) (s : Stock) : Stock :=
  { s with companyProfile := o.getD s.companyProfile }

/-- Unit 5 (lines 337-351): the report publication dates, taken from the first
entry when the fetched list is non-empty. -/
def applyFinaPubDate (o : Option (List PubDate)) (s : Stock) : Stock :=
  { s with finaAppointPublishDate :=
             match o with
             | some (d :: _) => d.appointPublishDate
             | _ => s.finaAppointPublishDate,
           finaActualPublishDate :=
             match o with
             | some (d :: _) => d.actualPublishDate
             | _ => s.finaActualPublishDate,
           finaReportDate :=
             match o with
             | some (d :: _) => d.reportDate
             | _ => s.finaReportDate }

/-- Unit 6 (lines 353-363): the analyst ratings. -/
def applyOrgRating (o : Option (List String)) (s : Stock) : Stock :=
  { s with orgRatingList := o.getD s.orgRatingList }

/-- Unit 7 (lines 365-375): the profit forecasts. -/
def applyProfitPredict (o : Option (List String)) (s : Stock) : Stock :=
  { s with profitPredictList := o.getD s.profitPredictList }

/-- Unit 8 (lines 377-387): the value assessment. -/
def applyJZPG (o : Option String) (s : Stock) : Stock :=
  { s with jzpg := o.getD s.jzpg }

/-- Unit 9 (lines 389-406): the income-statement history; when non-empty the
core-business share `OperateProfit / (OperateProfit + NonbusinessIncome)` and
the audit opinion are taken from the first entry.  (`x / 0 = 0` stands in for
the Go NaN/Inf at a zero denominator; no claim touches this field.) -/
def applyGincome (o : Option (List GincomeData)) (s : Stock) : Stock :=
  { s with historicalGincomeList := o.getD s.historicalGincomeList,
           byysValue :=
             match o with
             | some (g :: _) => g.operateProfit / (g.operateProfit + g.nonbusinessIncome)
             | _ => s.byysValue,
           finaReportOpinion :=
             match o with
             | some (g :: _) => g.opinionType
             | _ => s.finaReportOpinion }

/-- Unit 10 (lines 408-429): the cash-flow history; when non-empty the three
net flows are copied from the first entry and the free cash flow is
`operate + invest` when the latest investing flow is negative, else
`operate - invest`. -/
def applyCashflow (o : Option (List CashflowData)) (s : Stock) : Stock :=
  { s with historicalCashflowList := o.getD s.historicalCashflowList,
           netcashOperate :=
             match o with
             | some (cf :: _) => cf.netcashOperate
             | _ => s.netcashOperate,
           netcashInvest :=
             match o with
             | some (cf :: _) => cf.netcashInvest
             | _ => s.netcashInvest,
           netcashFinance :=
             match o with
             | some (cf :: _) => cf.netcashFinance
             | _ => s.netcashFinance,
           netcashFree :=
             match o with
             | some (cf :: _) =>
                 if cf.netcashInvest < 0 then
                   cf.netcashOperate + cf.netcashInvest
                 else
                   cf.netcashOperate - cf.netcashInvest
             | _ => s.netcashFree }

/-- Unit 11 (lines 431-441): the top-ten free-float holders. -/
def applyFreeHolders (o : Option (List String)) (s : Stock) : Stock :=
  { s with freeHoldersTop10 := o.getD s.freeHoldersTop10 }

/-- Unit 12 (lines 443-457): the main-money net inflows. -/
def applyMainMoneyNetInflows (o : Option (List ℚ)) (s : Stock) : Stock :=
  { s with mainMoneyNetInflows := o.getD s.mainMoneyNetInflows }

/-! ## Scoring pipeline (part_000 lines 468-754) -/

/-- The ROE volatility test of `calculateROEScore` (lines 559-565, 581):
the Go code computes `math.Sqrt(variance/n) / avgROE > 0.3`.  In exact
arithmetic that float comparison is equivalent to the square-root-free test
below: for `avg > 0` both sides of `sqrt(variance/n) > 0.3*avg` are
non-negative, so it squares to `variance/n > (0.3*avg)^2`; for `avg < 0` the
quotient is `≤ 0`, never `> 0.3`; for `avg = 0` the quotient is `+Inf` (true)
when `variance > 0` and NaN (false) when `variance = 0`. -/
def roeVolatilityExceeds (roeList : List ℚ) : Bool :=
  let n : ℚ := roeList.length
  let avgROE := roeList.foldl (· + ·) 0 / n
  let variance := roeList.foldl (fun acc roe => acc + (roe - avgROE) ^ 2) 0
  if 0 < avgROE then decide ((3/10 * avgROE) ^ 2 < variance / n)
  else if avgROE = 0 then decide (0 < variance)
  else false

/-- Source `calculateROEScore` (lines 531-590): requires 5 annual ROE values, else 0;
`avg ≥ 20 → 20`, `avg ≥ 15 → 15`, else `(avg/15)*15`; a volatility above 0.3
multiplies the score by 0.8. -/
def calculateROEScore (s : Stock) : ℚ :=
  let roeList := valueList s.historicalFinaMainData FinaReport.roejq 5
  if roeList.length = 0 then 0
  else if roeList.length < 5 then 0
  else
    let avgROE := roeList.foldl (· + ·) 0 / (roeList.length : ℚ)
    let score : ℚ :=
      if 20 ≤ avgROE then 20
      else if 15 ≤ avgROE then 15
      else avgROE / 15 * 15
    if roeVolatilityExceeds roeList then score * (8/10) else score

/-- Source `calculateCashFlowScore` (lines 592-616): fewer than 3 cash-flow years
gives 0; otherwise the count of the 3 most recent years with positive
operating cash flow maps to 15/10/5/0. -/
def calculateCashFlowScore (s : Stock) : ℚ :=
  if s.historicalCashflowList.length < 3 then 0
  else
    let positiveCount :=
      (s.historicalCashflowList.take 3).countP (fun cf => decide (0 < cf.netcashOperate))
    if positiveCount = 3 then 15
    else if positiveCount = 2 then 10
    else if positiveCount = 1 then 5
    else 0

/-- The year-over-year increase count of `calculateProfitGrowthScore` (lines
633-637): the number of adjacent pairs (newest first) with
`profitList[i] > profitList[i+1]`. -/
def adjacentIncreaseCount (l : List ℚ) : Nat :=
  (l.zip l.tail).countP (fun p => decide (p.2 < p.1))

/-- The growth-delta volatility sum of `calculateProfitGrowthScore` (lines
638-644): for each interior index, the absolute difference between the two
adjacent growth quotients.  (`x / 0 = 0` stands in for the Go Inf/NaN at a
zero profit; only the discount branch, never a bound, depends on it.) -/
def growthVolatilitySum : List ℚ → ℚ
  | a :: b :: c :: t =>
      abs ((b - c) / abs c - (a - b) / abs b) + growthVolatilitySum (b :: c :: t)
  | _ => 0

/-- Source `calculateProfitGrowthScore` (lines 618-654): requires 5 years of history
and 5 annual net-profit values, else 0; the score is 3 per year-over-year
increase, discounted by 0.8 when the growth deltas sum above 0.5. -/
def calculateProfitGrowthScore (s : Stock) : ℚ :=
  if s.historicalFinaMainData.length < 5 then 0
  else
    let profitList := valueList s.historicalFinaMainData FinaReport.netProfit 5
    if profitList.length < 5 then 0
    else
      let score : ℚ := (adjacentIncreaseCount profitList : ℚ) * 3
      if 1/2 < growthVolatilitySum profitList then score * (8/10) else score

/-- Source `calculateDebtRatioScore` (lines 656-676): from the newest debt-to-asset
percentage: `<30 → 10`, `<50 → 8`, `<70 → 5`, else 0 (empty history gives 0). -/
def calculateDebtRatioScore (s : Stock) : ℚ :=
  match s.historicalFinaMainData with
  | [] => 0
  | r :: _ =>
      if r.zcfzl < 30 then 10
      else if r.zcfzl < 50 then 8
      else if r.zcfzl < 70 then 5
      else 0

/-- Source `calculateValuationScore` (lines 678-702): from PE: `<10 → 15`, `<15 → 12`,
`<20 → 8`, `<30 → 5`, else 0; a PEG strictly between 0 and 1 raises the score
to at least 15. -/
def calculateValuationScore (s : Stock) : ℚ :=
  let score : ℚ :=
    if GoFloat.blt s.baseInfo.pe (GoFloat.fin 10) then 15
    else if GoFloat.blt s.baseInfo.pe (GoFloat.fin 15) then 12
    else if GoFloat.blt s.baseInfo.pe (GoFloat.fin 20) then 8
    else if GoFloat.blt s.baseInfo.pe (GoFloat.fin 30) then 5
    else 0
  if GoFloat.blt (GoFloat.fin 0) s.peg && GoFloat.blt s.peg (GoFloat.fin 1) then
    max score 15
  else score

/-- Source `calculateMoatScore` (lines 704-719): base 5, strongly moated industries 8,
weakly moated industries 3, capped at 10. -/
def calculateMoatScore (s : Stock) : ℚ :=
  let score : ℚ :=
    if s.baseInfo.industry = "食品饮料" ∨ s.baseInfo.industry = "医药生物" ∨
       s.baseInfo.industry = "家用电器" ∨ s.baseInfo.industry = "银行" ∨
       s.baseInfo.industry = "保险" then 8
    else if s.baseInfo.industry = "建筑" ∨ s.baseInfo.industry = "采掘" ∨
            s.baseInfo.industry = "农林牧渔" then 3
    else 5
  min 10 score

/-- Source `calculateManagementScore` (lines 721-736): a base score of 5, set to 7.5
when at least 3 years of fundamentals exist (dividend placeholder), then
unconditionally overwritten by the repurchase placeholder 7.5 and capped at
10. -/
def calculateManagementScore (s : Stock) : ℚ :=
  let score : ℚ := 5
  let score : ℚ := if 3 ≤ s.historicalFinaMainData.length then 15/2 else score
  let score : ℚ := 15/2
  min 10 score

/-- Source `calculateRDScore` (lines 738-742): fixed placeholder. -/
def calculateRDScore (_ : Stock) : ℚ := 5

/-- Source `calculateDividendScore` (lines 744-748): fixed placeholder. -/
def calculateDividendScore (_ : Stock) : ℚ := 5

/-- Source `calculateRepurchaseScore` (lines 750-754): fixed placeholder. -/
def calculateRepurchaseScore (_ : Stock) : ℚ := 5

/-- Source `calculateBuffettScore` (lines 468-529): the ten sub-scores and their sum.
The rendered description string (`%.1f` display formatting) is presentation
and left empty in the model. -/
def calculateBuffettScore (s : Stock) : BuffettScore :=
  let roeScore := calculateROEScore s
  let cashFlowScore := calculateCashFlowScore s
  let profitGrowthScore := calculateProfitGrowthScore s
  let debtRatioScore := calculateDebtRatioScore s
  let moatScore := calculateMoatScore s
  let managementScore := calculateManagementScore s
  let valuationScore := calculateValuationScore s
  let rdScore := calculateRDScore s
  let dividendScore := calculateDividendScore s
  let repurchaseScore := calculateRepurchaseScore s
  let totalScore := roeScore + cashFlowScore + profitGrowthScore +
    debtRatioScore + moatScore + managementScore + valuationScore +
    rdScore + dividendScore + repurchaseScore
  { roeScore := roeScore, cashFlowScore := cashFlowScore,
    profitGrowthScore := profitGrowthScore, debtRatioScore := debtRatioScore,
    moatScore := moatScore, managementScore := managementScore,
    valuationScore := valuationScore, totalScore := totalScore,
    scoreDescription := "", rdScore := rdScore,
    dividendScore := dividendScore, repurchaseScore := repurchaseScore }

/-- The first unit's fetch inputs, extracted from the per-provider outcomes. -/
def unit1InOf (inp : NewStockIn) : Unit1In :=
  ⟨inp.fina, inp.peList, inp.midPE, inp.avgRevGrowthByYear, inp.thisYear⟩

/-- Lines 136-172: the freshly created aggregate holding only the base info
and the PEG computed from it. -/
def initialStock (b : StockInfo) : Stock :=
  { baseInfo := b, peg := computePEG b.pe b.netprofitGrowthrate3Y }

/-- Merging the first unit's owned fields into the aggregate. -/
def mergeUnit1 (u1 : Unit1Out) (s : Stock) : Stock :=
  { s with historicalFinaMainData := u1.historicalFinaMainData,
           historicalPEList := u1.historicalPEList,
           rightPrice := u1.rightPrice,
           priceSpace := u1.priceSpace,
           lastYearRightPrice := u1.lastYearRightPrice }

/-- The writes of units 2-12 (any order - the fields are disjoint; Go runs
them concurrently). -/
def applyAllUnits (inp : NewStockIn) (u1 : Unit1Out) (s : Stock) : Stock :=
  let s := mergeUnit1 u1 s
  let s := applyValuationMap inp.valuationMap s
  let s := applyHistoricalPrice inp.historicalPrice inp.volatility s
  let s := applyCompanyProfile inp.companyProfile s
  let s := applyFinaPubDate inp.finaPubDateList s
  let s := applyOrgRating inp.orgRatingList s
  let s := applyProfitPredict inp.profitPredictList s
  let s := applyJZPG inp.jzpg s
  let s := applyGincome inp.gincomeList s
  let s := applyCashflow inp.cashflowList s
  let s := applyFreeHolders inp.freeHolders s
  applyMainMoneyNetInflows inp.mainMoneyNetInflows s

/-- Source `NewStock` (part_000 lines 135-466): build the aggregate from the base
info and the per-provider outcomes.  The PEG is computed first, then the
current price is read (the price history is still empty at line 173, so a
closed market yields the `-1` sentinel), then the twelve units run (written
sequentially here; they own disjoint fields), and after the barrier the
Buffett score is computed.  The only failure is the modelled Go panic inside
the valuation chain; the Go function otherwise always returns `(s, nil)`. -/
def NewStock (b : StockInfo) (inp : NewStockIn) : Except String Stock :=
  match unit1 (unit1InOf inp) (GoFloat.fin (initialStock b).getPrice) with
  | .error e => .error e
  | .ok u1 =>
      let s := applyAllUnits inp u1 (initialStock b)
      .ok { s with buffettScore := calculateBuffettScore s }

/-! ## Stock-list sorting (part_000 lines 117-132)

`SortByROE` and `SortByPriceSpace` call Go's `sort.Slice`, whose documented
contract is: the slice is reordered into a permutation with no strict
inversion with respect to the supplied `less` function, and "the sort is not
guaranteed to be stable" (`sort.SliceStable` is the stable variant).  The
call is therefore embedded by its contract: a relation admitting every
comparator-sorted permutation of the input. -/

/-- An outcome admitted by Go `sort.Slice(s, less)`: a permutation of the
input in which no later element is `less` than an earlier one. -/
def sortSliceOutcome {α : Type} (less : α → α → Bool) (s out : List α) : Prop :=
  out.Perm s ∧ out.Pairwise (fun a b => ¬ less b a = true)

/-- Source `SortByROE`: `less(i, j) = s[i].RoeWeight > s[j].RoeWeight`. -/
def sortByROEOutcome (s out : List Stock) : Prop :=
  sortSliceOutcome (fun a b => decide (b.baseInfo.roeWeight < a.baseInfo.roeWeight)) s out

/-- Source `SortByPriceSpace`: `less(i, j) = s[i].PriceSpace > s[j].PriceSpace`. -/
def sortByPriceSpaceOutcome (s out : List Stock) : Prop :=
  sortSliceOutcome (fun a b => GoFloat.blt b.priceSpace a.priceSpace) s out

/-- Stability with respect to a sort key, as the claim states it: the
elements whose keys compare equal retain their original relative order,
i.e. for every key value the sub-list carrying that key is unchanged. -/
def stableFor {α : Type} (key : α → ℚ) (s out : List α) [DecidableEq α] : Prop :=
  ∀ k : ℚ, out.filter (fun x => key x = k) = s.filter (fun x => key x = k)

/-! ## Spec-side formulations

The definitions below follow the wording of the specification / claims, to be
compared with the code-side embedding above. -/

/-- Spec wording (C1): the base EPS is the arithmetic mean of the three most
recent annual EPS values when at least three exist, otherwise the single most
recent annual EPS (the resolved last-year report of step 1). -/
def specBaseEPS (eps : List ℚ) (lastYearEps : ℚ) : ℚ :=
  if 3 ≤ eps.length then (eps.take 3).sum / 3 else lastYearEps

/-- Spec wording (C1): growth values above 50 are replaced by 50; zero and
negative values pass through unmodified. -/
def specCappedGrowth (g : ℚ) : ℚ :=
  if 50 < g then 50 else g

/-- Spec wording (C1): reasonable price = median PE × base EPS ×
(1 + capped growth rate / 100) × explosive-growth multiplier. -/
def specRightPrice (eps : List ℚ) (peMid g lastYearEps m : ℚ) : ℚ :=
  peMid * specBaseEPS eps lastYearEps * (1 + specCappedGrowth g / 100) * m

/-- Spec wording (C1): price-gap percentage =
(reasonable price − current price) / current price × 100. -/
def specPriceSpace (rightPrice price : ℚ) : ℚ :=
  (rightPrice - price) / price * 100

/-- Spec wording (C5): 0.7 when at least two annual EPS values exist and the
most recent grew more than 100% year-over-year relative to the prior value,
1.0 in every other case. -/
def specExplosiveMultiplier (eps : List ℚ) : ℚ :=
  match eps with
  | e0 :: e1 :: _ => if 100 < (e0 - e1) / e1 * 100 then 7/10 else 1
  | _ => 1

/-- The annual EPS series of a fundamentals history, newest first. -/
def annualEpsOf (hist : List FinaReport) : List ℚ :=
  (hist.filter (fun r => r.isAnnual)).map FinaReport.epsjb

/-- Claim wording (C9): the prior-year base EPS is the arithmetic mean of the
2nd through 4th most recent annual EPS values (`none` when fewer than four
annual values exist, so the claimed mean is undefined). -/
def claimedLastYearBaseEPS (annualEps : List ℚ) : Option ℚ :=
  match annualEps with
  | _ :: e1 :: e2 :: e3 :: _ => some ((e1 + e2 + e3) / 3)
  | _ => none

/-- Claim wording (C9): prior-year reasonable price = median PE × prior-year
base EPS × (1 + prior-year growth rate capped at 50 / 100), no
explosive-growth multiplier. -/
def claimedLastYearRightPrice (annualEps : List ℚ) (peMid g : ℚ) : Option ℚ :=
  (claimedLastYearBaseEPS annualEps).map
    (fun b => peMid * b * (1 + specCappedGrowth g / 100))

/-! ## Claims -/

/-- C2: for every stock construction, the PEG field is exactly -1 when the
three-year net-profit growth rate is exactly zero or negative, and also when
the quotient PE ÷ growth rate is NaN or infinite; for every other valid
finite input (finite PE, finite positive growth), PEG equals PE ÷ growth rate
and is never NaN. -/
theorem c2_peg_sentinel_and_quotient (pe growth : GoFloat) :
    (growth = GoFloat.fin 0 → computePEG pe growth = GoFloat.fin (-1)) ∧
    (∀ g : ℚ, growth = GoFloat.fin g → g < 0 →
      computePEG pe growth = GoFloat.fin (-1)) ∧
    (growth ≠ GoFloat.fin 0 → GoFloat.blt growth (GoFloat.fin 0) = false →
      ((pe.div growth).isNaN = true ∨ (pe.div growth).isInf = true) →
      computePEG pe growth = GoFloat.fin (-1)) ∧
    (∀ a g : ℚ, pe = GoFloat.fin a → growth = GoFloat.fin g → 0 < g →
      computePEG pe growth = GoFloat.fin (a / g) ∧
        (computePEG pe growth).isNaN = false) := by
  refine ⟨?_, ?_, ?_, ?_⟩
  · intro h
    simp [computePEG, h]
  · intro g hg hneg
    subst hg
    simp [computePEG, hneg, hneg.ne]
  · intro h1 h2 h3
    rcases h3 with h | h <;> simp [computePEG, h1, h2, h]
  · intro a g ha hg hpos
    subst ha; subst hg
    have hne : g ≠ 0 := ne_of_gt hpos
    have hdiv : GoFloat.div (GoFloat.fin a) (GoFloat.fin g) = GoFloat.fin (a / g) :=
      GoFloat.div_fin_fin a hne
    constructor <;>
      simp [computePEG, hne, not_lt_of_gt hpos, hdiv]

/-- Witness for C2 at concrete inputs: PE 6, growth 3 gives PEG 2; growth 0
gives the sentinel -1. -/
theorem c2_witness :
    computePEG (GoFloat.fin 6) (GoFloat.fin 3) = GoFloat.fin 2 ∧
    computePEG (GoFloat.fin 6) (GoFloat.fin 0) = GoFloat.fin (-1) := by
  constructor
  · have h := (c2_peg_sentinel_and_quotient (GoFloat.fin 6) (GoFloat.fin 3)).2.2.2
      6 3 rfl rfl (by norm_num)
    have h6 : (6 : ℚ) / 3 = 2 := by norm_num
    simpa [h6] using h.1
  · exact (c2_peg_sentinel_and_quotient (GoFloat.fin 6) (GoFloat.fin 0)).1 rfl

/-- C5: the explosive-growth multiplier is 0.7 exactly when at least two
annual EPS values exist and the most recent grew more than 100% relative to
the prior value, and 1.0 in every other case — stated as: on finite EPS data
whose prior-year value is non-zero (the growth quotient is well defined), the
code's adjustment factor equals the spec-worded multiplier. -/
theorem c5_explosive_multiplier (eps : List ℚ)
    (h : match eps with | _ :: e1 :: _ => e1 ≠ 0 | _ => True) :
    explosiveAdjOf (eps.map GoFloat.fin) = GoFloat.fin (specExplosiveMultiplier eps) := by
  match eps with
  | [] => rfl
  | [_] => rfl
  | e0 :: e1 :: t =>
    have he1 : e1 ≠ 0 := h
    have hdiv : GoFloat.div (GoFloat.fin (e0 - e1)) (GoFloat.fin e1) =
        GoFloat.fin ((e0 - e1) / e1) := GoFloat.div_fin_fin _ he1
    simp only [List.map, explosiveAdjOf, specExplosiveMultiplier,
      GoFloat.sub_fin_fin, hdiv, GoFloat.mul_fin_fin, GoFloat.blt_fin_fin]
    split_ifs with h1 h2 h2 <;> simp_all

/-- Witness for C5: EPS history `[3, 1]` has 200% latest-year growth, so the
adjustment factor is 0.7. -/
theorem c5_witness :
    explosiveAdjOf [GoFloat.fin 3, GoFloat.fin 1] = GoFloat.fin (7/10) := by
  have h := c5_explosive_multiplier [3, 1] (by norm_num)
  have : specExplosiveMultiplier [3, 1] = 7/10 := by
    simp [specExplosiveMultiplier]
    norm_num
  simpa [this] using h

/-- The running-sum loop on injected finite values is the exact rational sum. -/
theorem foldl_add_map_fin (l : List ℚ) (q : ℚ) :
    (l.map GoFloat.fin).foldl GoFloat.add (GoFloat.fin q) = GoFloat.fin (q + l.sum) := by
  induction l generalizing q with
  | nil => simp
  | cons a t ih => simp [ih, add_assoc]

theorem sumGoFloat_map_fin (l : List ℚ) :
    sumGoFloat (l.map GoFloat.fin) = GoFloat.fin l.sum := by
  simpa using foldl_add_map_fin l 0

/-- On a fetched EPS window of at most three finite values and a resolved
last-year report, the code's base EPS is the spec's base EPS. -/
theorem baseEPSOf_map_fin (eps : List ℚ) (lyr : FinaReport) (hlen : eps.length ≤ 3) :
    baseEPSOf (eps.map GoFloat.fin) (some lyr) =
      .ok (GoFloat.fin (specBaseEPS eps lyr.epsjb)) := by
  by_cases h3 : 3 ≤ eps.length
  · have hlen3 : eps.length = 3 := le_antisymm hlen h3
    have htake : eps.take 3 = eps := List.take_of_length_le (le_of_eq hlen3)
    simp only [baseEPSOf, List.length_map, hlen3, sumGoFloat_map_fin, specBaseEPS,
      htake, if_pos (le_refl 3)]
    rw [GoFloat.div_fin_fin _ (by norm_num : ((3 : Nat) : ℚ) ≠ 0)]
    norm_num
  · simp [baseEPSOf, h3, specBaseEPS]

/-- The code's growth cap is the spec's growth cap. -/
theorem adjustedGrowthOf_fin (g : ℚ) :
    adjustedGrowthOf (GoFloat.fin g) = GoFloat.fin (specCappedGrowth g) := by
  simp only [adjustedGrowthOf, specCappedGrowth, GoFloat.blt_fin_fin]
  split_ifs with h <;> simp_all

/-- The prior-year base EPS resolves whenever the window has three values or
the before-last-year report exists. -/
theorem lastYearBaseEPSOf_isOk (eps : List GoFloat) (blyr : Option FinaReport)
    (h : 3 ≤ eps.length ∨ blyr.isSome = true) :
    ∃ lyb, lastYearBaseEPSOf eps blyr = .ok lyb := by
  match eps, h with
  | _ :: e1 :: e2 :: _, _ => exact ⟨_, rfl⟩
  | [], h | [_], h | [_, _], h =>
      simp only [List.length] at h
      rcases h with h | h
      · omega
      · obtain ⟨r, hr⟩ := Option.isSome_iff_exists.mp h
        subst hr
        exact ⟨_, rfl⟩

/-- On finite inputs the code's raw right price (before the validity check)
is exactly the spec formula. -/
theorem rawRightPriceOf_fin (eps : List ℚ) (peMid g glast price m : ℚ)
    (lyr : FinaReport) (blyr : Option FinaReport) (hlen : eps.length ≤ 3)
    (hm : explosiveAdjOf (eps.map GoFloat.fin) = GoFloat.fin m) :
    rawRightPriceOf ⟨eps.map GoFloat.fin, GoFloat.fin peMid, GoFloat.fin g,
        GoFloat.fin glast, some lyr, blyr, GoFloat.fin price⟩ =
      .ok (GoFloat.fin (specRightPrice eps peMid g lyr.epsjb m)) := by
  simp only [rawRightPriceOf, baseEPSOf_map_fin eps lyr hlen, adjustedGrowthOf_fin,
    GoFloat.div_fin_fin _ (show (100 : ℚ) ≠ 0 by norm_num), GoFloat.add_fin_fin,
    GoFloat.mul_fin_fin, hm, specRightPrice]
  congr 2
  ring

/-- C1: on a successfully fetched valuation input (finite values, an EPS
window of at most the three requested years, a resolved last-year report, a
non-zero current price) whose spec-formula value is positive (so the step-6
fallback does not fire), the derived reasonable price is
median PE × base EPS × (1 + capped growth/100) × explosive multiplier, and
the price gap is (reasonable price − current price)/current price × 100. -/
theorem c1_reasonable_price (eps : List ℚ) (peMid g glast price m : ℚ)
    (lyr : FinaReport) (blyr : Option FinaReport)
    (hlen : eps.length ≤ 3)
    (hm : explosiveAdjOf (eps.map GoFloat.fin) = GoFloat.fin m)
    (hlyb : 3 ≤ eps.length ∨ blyr.isSome = true)
    (hprice : price ≠ 0)
    (hpos : 0 < specRightPrice eps peMid g lyr.epsjb m) :
    (computeValuation ⟨eps.map GoFloat.fin, GoFloat.fin peMid, GoFloat.fin g,
        GoFloat.fin glast, some lyr, blyr, GoFloat.fin price⟩).map
        ValuationOut.rightPrice =
      .ok (GoFloat.fin (specRightPrice eps peMid g lyr.epsjb m)) ∧
    (computeValuation ⟨eps.map GoFloat.fin, GoFloat.fin peMid, GoFloat.fin g,
        GoFloat.fin glast, some lyr, blyr, GoFloat.fin price⟩).map
        ValuationOut.priceSpace =
      .ok (GoFloat.fin
        (specPriceSpace (specRightPrice eps peMid g lyr.epsjb m) price)) := by
  have hraw := rawRightPriceOf_fin eps peMid g glast price m lyr blyr hlen hm
  obtain ⟨lyb, hlyb2⟩ := lastYearBaseEPSOf_isOk (eps.map GoFloat.fin) blyr
    (by simpa using hlyb)
  have hps : priceSpaceOf (GoFloat.fin (specRightPrice eps peMid g lyr.epsjb m))
      (GoFloat.fin price) =
      GoFloat.fin (specPriceSpace (specRightPrice eps peMid g lyr.epsjb m) price) := by
    simp [priceSpaceOf, specPriceSpace, GoFloat.div_fin_fin _ hprice]
  constructor <;>
    simp [computeValuation, hraw, hlyb2, hpos.not_le, hps, Except.map]

/-- Witness for C1 at the spec's own example: EPS history `[2.0, 1.0, 0.8]`
(newest first), PE median 15, growth 10%, current price 25 gives reasonable
price 20.9 and price gap -16.4%. -/
theorem c1_witness :
    (computeValuation ⟨[2, 1, 4/5].map GoFloat.fin, GoFloat.fin 15, GoFloat.fin 10,
        GoFloat.fin 0, some ⟨2024, true, 2, 0, 0, 0, ""⟩, none, GoFloat.fin 25⟩).map
        ValuationOut.rightPrice = .ok (GoFloat.fin (209/10)) ∧
    (computeValuation ⟨[2, 1, 4/5].map GoFloat.fin, GoFloat.fin 15, GoFloat.fin 10,
        GoFloat.fin 0, some ⟨2024, true, 2, 0, 0, 0, ""⟩, none, GoFloat.fin 25⟩).map
        ValuationOut.priceSpace = .ok (GoFloat.fin (-82/5)) := by
  have hm : explosiveAdjOf ([2, 1, 4/5].map GoFloat.fin) = GoFloat.fin 1 := by
    simp [explosiveAdjOf, GoFloat.div_fin_fin _ (show (1 : ℚ) ≠ 0 by norm_num)]
    norm_num
  have hval : specRightPrice [2, 1, 4/5] 15 10 2 1 = 209/10 := by
    norm_num [specRightPrice, specBaseEPS, specCappedGrowth]
  have h := c1_reasonable_price [2, 1, 4/5] 15 10 0 25 1 ⟨2024, true, 2, 0, 0, 0, ""⟩
    none (by norm_num) hm (Or.inl (by norm_num)) (by norm_num) (by rw [hval]; norm_num)
  have hsp : specPriceSpace (209/10) 25 = -82/5 := by
    norm_num [specPriceSpace]
  constructor
  · simpa [hval] using h.1
  · have := h.2
    rw [hval, hsp] at this
    exact this

/-- C4: whenever the computed reasonable price is NaN, infinite or
non-positive, it is discarded and replaced by median PE × the resolved most
recent annual report's EPS (no growth adjustment, no explosive-growth
multiplier), the price-gap percentage is recomputed from this fallback and
the current price, and the numeric failure is not propagated as an error
(the computation still returns a result). -/
theorem c4_fallback (v : ValuationIn) (rp lyb : GoFloat) (r : FinaReport)
    (hraw : rawRightPriceOf v = .ok rp)
    (hlyb : lastYearBaseEPSOf v.epsHistory v.beforeLastYearReport = .ok lyb)
    (hl : v.lastYearReport = some r)
    (hinv : rp.isNaN = true ∨ rp.isInf = true ∨ rp.ble (GoFloat.fin 0) = true) :
    (computeValuation v).map ValuationOut.rightPrice =
      .ok (v.peMidVal.mul (GoFloat.fin r.epsjb)) ∧
    (computeValuation v).map ValuationOut.priceSpace =
      .ok (priceSpaceOf (v.peMidVal.mul (GoFloat.fin r.epsjb)) v.price) := by
  have hcond : (rp.isNaN || rp.isInf || rp.ble (GoFloat.fin 0)) = true := by
    rcases hinv with h | h | h <;> simp [h]
  constructor <;> simp [computeValuation, hraw, hlyb, hl, hcond, Except.map]

/-- Witness for C4: EPS history `[-1, -1, -1]`, PE median 10, growth 0 and
last-year EPS 2 produce the non-positive raw price -10, so the result is the
fallback 10 × 2 = 20 and the recomputed gap (20−5)/5×100 = 300. -/
theorem c4_witness :
    (computeValuation ⟨[GoFloat.fin (-1), GoFloat.fin (-1), GoFloat.fin (-1)],
        GoFloat.fin 10, GoFloat.fin 0, GoFloat.fin 0,
        some ⟨2024, true, 2, 0, 0, 0, ""⟩, none, GoFloat.fin 5⟩).map
        ValuationOut.rightPrice = .ok (GoFloat.fin 20) ∧
    (computeValuation ⟨[GoFloat.fin (-1), GoFloat.fin (-1), GoFloat.fin (-1)],
        GoFloat.fin 10, GoFloat.fin 0, GoFloat.fin 0,
        some ⟨2024, true, 2, 0, 0, 0, ""⟩, none, GoFloat.fin 5⟩).map
        ValuationOut.priceSpace = .ok (GoFloat.fin 300) := by
  have hraw : rawRightPriceOf ⟨[GoFloat.fin (-1), GoFloat.fin (-1), GoFloat.fin (-1)],
      GoFloat.fin 10, GoFloat.fin 0, GoFloat.fin 0,
      some ⟨2024, true, 2, 0, 0, 0, ""⟩, none, GoFloat.fin 5⟩ =
      .ok (GoFloat.fin (-10)) := by
    simp [rawRightPriceOf, baseEPSOf, sumGoFloat, explosiveAdjOf, adjustedGrowthOf,
      GoFloat.add, GoFloat.mul, GoFloat.div, GoFloat.sub, GoFloat.neg, GoFloat.blt]
    norm_num
  have h := c4_fallback _ (GoFloat.fin (-10))
    (((GoFloat.fin (-1)).add (GoFloat.fin (-1))).div (GoFloat.fin 2))
    ⟨2024, true, 2, 0, 0, 0, ""⟩ hraw rfl rfl
    (Or.inr (Or.inr (by simp)))
  have h20 : (10 : ℚ) * 2 = 20 := by norm_num
  refine ⟨?_, ?_⟩
  · simpa [h20] using h.1
  · have hps : priceSpaceOf (GoFloat.fin 20) (GoFloat.fin 5) = GoFloat.fin 300 := by
      simp [priceSpaceOf, GoFloat.div_fin_fin _ (show (5 : ℚ) ≠ 0 by norm_num)]
      norm_num
    simpa [h20, hps] using h.2

/-- A concrete fundamentals history for the prior-year-price check: four
annual reports (newest first) with EPS 1, 1, 1, 10. -/
def c9hist : List FinaReport :=
  [⟨2025, true, 1, 0, 0, 0, ""⟩, ⟨2024, true, 1, 0, 0, 0, ""⟩,
   ⟨2023, true, 1, 0, 0, 0, ""⟩, ⟨2022, true, 10, 0, 0, 0, ""⟩]

/-- C9 counterexample: with the history `c9hist` (annual EPS 1, 1, 1, 10
newest first), PE median 1 and growth 0, the code's prior-year reasonable
price is 1 — the mean of the 2nd and 3rd most recent annual EPS — whereas
the claim's formula (mean of the 2nd through 4th most recent annual EPS,
i.e. (1+1+10)/3) gives 4. -/
theorem c9_counterexample :
    (unit1 ⟨some c9hist, some [1], some 1, fun _ => 0, 2026⟩ (GoFloat.fin 25)).map
      Unit1Out.lastYearRightPrice = .ok (GoFloat.fin 1) ∧
    claimedLastYearRightPrice (annualEpsOf c9hist) 1 0 = some 4 ∧
    GoFloat.fin (1 : ℚ) ≠ GoFloat.fin (4 : ℚ) := by
  refine ⟨?_, ?_, by simp⟩
  · simp [unit1, c9hist, getReport, List.find?, valueList, List.filter,
      computeValuation, rawRightPriceOf, baseEPSOf, sumGoFloat, lastYearBaseEPSOf,
      adjustedGrowthOf, explosiveAdjOf, priceSpaceOf, GoFloat.add, GoFloat.mul,
      GoFloat.div, GoFloat.sub, GoFloat.neg, GoFloat.blt, GoFloat.ble,
      GoFloat.isNaN, GoFloat.isInf, Except.map]
    norm_num
  · simp [claimedLastYearRightPrice, claimedLastYearBaseEPS, annualEpsOf, c9hist,
      specCappedGrowth]
    norm_num

/-- The rational value of the code's prior-year base EPS (part_000 lines
266-272): the mean of the 2nd and 3rd most recent fetched annual EPS values
when the window has at least three, else the before-last-year report's EPS. -/
def lastYearBaseEPSQ (eps : List ℚ) (blyrEps : ℚ) : ℚ :=
  match eps with
  | _ :: e1 :: e2 :: _ => (e1 + e2) / 2
  | _ => blyrEps

/-- C9 amended: the prior-year reasonable price equals median PE × prior-year
base EPS × (1 + prior-year average revenue growth rate capped at 50 / 100),
with no explosive-growth multiplier, where the prior-year base EPS is the
arithmetic mean of the 2nd and 3rd most recent annual EPS values (two
values, not three) when the fetched window has at least three entries, and
the before-last-year report's EPS otherwise. -/
theorem c9_amended (eps : List ℚ) (peMid g glast price : ℚ) (lyr blyrR : FinaReport) :
    (computeValuation ⟨eps.map GoFloat.fin, GoFloat.fin peMid, GoFloat.fin g,
        GoFloat.fin glast, some lyr, some blyrR, GoFloat.fin price⟩).map
      ValuationOut.lastYearRightPrice =
      .ok (GoFloat.fin (peMid * lastYearBaseEPSQ eps blyrR.epsjb *
        (1 + specCappedGrowth glast / 100))) := by
  obtain ⟨b, hb⟩ : ∃ b, baseEPSOf (eps.map GoFloat.fin) (some lyr) = .ok b := by
    unfold baseEPSOf
    split <;> exact ⟨_, rfl⟩
  have hlyb : lastYearBaseEPSOf (eps.map GoFloat.fin) (some blyrR) =
      .ok (GoFloat.fin (lastYearBaseEPSQ eps blyrR.epsjb)) := by
    match eps with
    | [] => rfl
    | [_] => rfl
    | [_, _] => rfl
    | _ :: e1 :: e2 :: _ =>
        simp [lastYearBaseEPSOf, lastYearBaseEPSQ,
          GoFloat.div_fin_fin _ (show (2 : ℚ) ≠ 0 by norm_num)]
  have hadj : adjustedGrowthOf (GoFloat.fin glast) = GoFloat.fin (specCappedGrowth glast) :=
    adjustedGrowthOf_fin glast
  have hassoc : peMid * (lastYearBaseEPSQ eps blyrR.epsjb *
      (1 + specCappedGrowth glast / 100)) =
      peMid * lastYearBaseEPSQ eps blyrR.epsjb * (1 + specCappedGrowth glast / 100) := by
    ring
  simp only [computeValuation, rawRightPriceOf, hb, hlyb, hadj,
    GoFloat.div_fin_fin _ (show (100 : ℚ) ≠ 0 by norm_num), GoFloat.add_fin_fin,
    GoFloat.mul_fin_fin, hassoc]
  split_ifs <;> simp [Except.map]

/-- A minimal base info record for concrete scoring inputs. -/
def plainBase : StockInfo :=
  ⟨"", "", GoFloat.fin 0, GoFloat.fin 0, 0, "", none⟩

/-- A zero-valued annual report for a given year. -/
def plainReport (y : Int) : FinaReport := ⟨y, true, 0, 0, 0, 0, ""⟩

/-- A stock with exactly three years of fundamentals history. -/
def c7stock3 : Stock :=
  { baseInfo := plainBase,
    historicalFinaMainData := [plainReport 2024, plainReport 2023, plainReport 2022] }

/-- C7 counterexample: a stock with no fundamentals history and a stock with
3 years of history both get management score 7.5 — the under-3-years value is
not strictly lower, because the length branch's assignment is dead (it is
unconditionally overwritten by the repurchase placeholder). -/
theorem c7_counterexample :
    calculateManagementScore { baseInfo := plainBase } = 15/2 ∧
    calculateManagementScore c7stock3 = 15/2 ∧
    ¬ ((15 : ℚ)/2 < 15/2) := by
  refine ⟨?_, ?_, by norm_num⟩ <;>
    · simp [calculateManagementScore]
      norm_num

/-- C7 amended: the management-discipline sub-score is the constant 7.5 for
every stock; it does not depend on the fundamentals-history length (the
length-conditional assignment is overwritten before use). -/
theorem c7_amended (s : Stock) : calculateManagementScore s = 15/2 := by
  simp [calculateManagementScore]
  norm_num

/-- C10: after every aggregation whose cash-flow fetch returned a non-empty
history (and whose valuation chain completed), the operating, investing and
financing net cash flows are copied from the most recent cash-flow report and
the free cash flow equals operating minus the absolute value of investing
(the code's `operate + invest` for negative investing and `operate − invest`
otherwise). -/
theorem c10_netcash (b : StockInfo) (inp : NewStockIn) (s : Stock)
    (cf : CashflowData) (rest : List CashflowData)
    (hok : NewStock b inp = .ok s)
    (hcf : inp.cashflowList = some (cf :: rest)) :
    s.historicalCashflowList = cf :: rest ∧
    s.netcashOperate = cf.netcashOperate ∧
    s.netcashInvest = cf.netcashInvest ∧
    s.netcashFinance = cf.netcashFinance ∧
    s.netcashFree = cf.netcashOperate - |cf.netcashInvest| := by
  unfold NewStock at hok
  revert hok
  cases hunit : unit1 (unit1InOf inp) (GoFloat.fin (initialStock b).getPrice) with
  | error e => intro hok; simp at hok
  | ok u =>
      intro hok
      simp only [] at hok
      injection hok with hs
      subst hs
      simp only [applyAllUnits]
      have hfree : (if cf.netcashInvest < 0 then cf.netcashOperate + cf.netcashInvest
          else cf.netcashOperate - cf.netcashInvest) =
          cf.netcashOperate - |cf.netcashInvest| := by
        rcases lt_or_le cf.netcashInvest 0 with h | h
        · rw [if_pos h, abs_of_neg h]; ring
        · rw [if_neg (not_lt.mpr h), abs_of_nonneg h]
      cases hfh : inp.freeHolders <;> cases hmm : inp.mainMoneyNetInflows <;>
        simp [applyValuationMap, applyHistoricalPrice, applyCompanyProfile,
          applyFinaPubDate, applyOrgRating, applyProfitPredict, applyJZPG,
          applyGincome, applyCashflow, applyFreeHolders, applyMainMoneyNetInflows,
          hcf, hfh, hmm, hfree]

/-- The fetch outcomes of the C10 witness: every provider fails except the
cash-flow fetch, which returns one report (operate 5, invest -2, finance 1). -/
def c10inp : NewStockIn :=
  { fina := none, peList := none, midPE := none, avgRevGrowthByYear := fun _ => 0,
    thisYear := 2026, valuationMap := none, historicalPrice := none,
    volatility := none, companyProfile := none, finaPubDateList := none,
    orgRatingList := none, profitPredictList := none, jzpg := none,
    gincomeList := none, cashflowList := some [⟨5, -2, 1⟩], freeHolders := none,
    mainMoneyNetInflows := none }

/-- Witness for C10: with the outcomes `c10inp` the aggregation succeeds and
yields free cash flow 5 − |−2| = 3. -/
theorem c10_witness :
    ∃ s, NewStock plainBase c10inp = .ok s ∧
      s.netcashOperate = 5 ∧ s.netcashInvest = -2 ∧ s.netcashFree = 3 := by
  obtain ⟨s, hs⟩ : ∃ s, NewStock plainBase c10inp = .ok s := ⟨_, rfl⟩
  have h := c10_netcash plainBase c10inp s ⟨5, -2, 1⟩ [] hs rfl
  refine ⟨s, hs, h.2.1, h.2.2.1, ?_⟩
  have := h.2.2.2.2
  norm_num at this
  exact this

/-- The fetched indicator list never exceeds the requested count. -/
theorem valueList_length_le (hist : List FinaReport) (f : FinaReport → ℚ) (n : Nat) :
    (valueList hist f n).length ≤ n := by
  simp [valueList]

/-- The year-over-year increase count is below the list length. -/
theorem adjacentIncreaseCount_le (l : List ℚ) : adjacentIncreaseCount l ≤ l.tail.length := by
  calc adjacentIncreaseCount l ≤ (l.zip l.tail).length := List.countP_le_length _
  _ ≤ l.tail.length := by rw [List.length_zip]; omega

/-- The ROE sub-score never exceeds 20 (it can be negative: when the 5-year
average ROE is below 15 the score equals that average). -/
theorem calculateROEScore_le (s : Stock) : calculateROEScore s ≤ 20 := by
  unfold calculateROEScore
  dsimp only
  split_ifs <;>
    (try rw [div_mul_cancel₀ _ (by norm_num : (15 : ℚ) ≠ 0)]) <;> linarith

/-- The cash-flow sub-score is one of 0, 5, 10, 15. -/
theorem calculateCashFlowScore_bounds (s : Stock) :
    0 ≤ calculateCashFlowScore s ∧ calculateCashFlowScore s ≤ 15 := by
  unfold calculateCashFlowScore
  dsimp only
  constructor <;> split_ifs <;> norm_num

/-- The profit-growth sub-score lies in [0, 15] (in fact in [0, 12]). -/
theorem calculateProfitGrowthScore_bounds (s : Stock) :
    0 ≤ calculateProfitGrowthScore s ∧ calculateProfitGrowthScore s ≤ 15 := by
  have hlen : (valueList s.historicalFinaMainData FinaReport.netProfit 5).length ≤ 5 :=
    valueList_length_le _ _ _
  have h1 : adjacentIncreaseCount (valueList s.historicalFinaMainData FinaReport.netProfit 5) ≤ 4 := by
    have h2 := adjacentIncreaseCount_le (valueList s.historicalFinaMainData FinaReport.netProfit 5)
    have h3 := List.length_tail (valueList s.historicalFinaMainData FinaReport.netProfit 5)
    omega
  have hcount : (adjacentIncreaseCount (valueList s.historicalFinaMainData FinaReport.netProfit 5) : ℚ) ≤ 4 := by
    exact_mod_cast h1
  have hnn : (0 : ℚ) ≤
      (adjacentIncreaseCount (valueList s.historicalFinaMainData FinaReport.netProfit 5) : ℚ) := by
    positivity
  unfold calculateProfitGrowthScore
  dsimp only
  constructor <;> split_ifs <;> linarith

/-- The leverage sub-score is one of 0, 5, 8, 10. -/
theorem calculateDebtRatioScore_bounds (s : Stock) :
    0 ≤ calculateDebtRatioScore s ∧ calculateDebtRatioScore s ≤ 10 := by
  unfold calculateDebtRatioScore
  cases s.historicalFinaMainData with
  | nil => norm_num
  | cons r t =>
      dsimp only
      constructor <;> split_ifs <;> norm_num

/-- The moat sub-score is one of 3, 5, 8 (capped at 10). -/
theorem calculateMoatScore_bounds (s : Stock) :
    0 ≤ calculateMoatScore s ∧ calculateMoatScore s ≤ 10 := by
  unfold calculateMoatScore
  dsimp only
  constructor <;> split_ifs <;> norm_num [min_def]

/-- The management sub-score is within [0, 10] (it is the constant 7.5). -/
theorem calculateManagementScore_bounds (s : Stock) :
    0 ≤ calculateManagementScore s ∧ calculateManagementScore s ≤ 10 := by
  unfold calculateManagementScore
  norm_num [min_def]

/-- The valuation sub-score is one of 0, 5, 8, 12, 15. -/
theorem calculateValuationScore_bounds (s : Stock) :
    0 ≤ calculateValuationScore s ∧ calculateValuationScore s ≤ 15 := by
  unfold calculateValuationScore
  dsimp only
  constructor <;> split_ifs <;> norm_num [max_def]

/-- C6 amended: every sub-score lies within its declared bound — except the
ROE sub-score, which is only bounded above by 20 (when the 5-year average ROE
is below 15 the score equals that average, which can be negative) — and the
total equals the exact arithmetic sum of the ten sub-scores (it can exceed
100: the individual maxima add up to more than 100). -/
theorem c6_amended (s : Stock) :
    (calculateBuffettScore s).roeScore ≤ 20 ∧
    (0 ≤ (calculateBuffettScore s).cashFlowScore ∧
      (calculateBuffettScore s).cashFlowScore ≤ 15) ∧
    (0 ≤ (calculateBuffettScore s).profitGrowthScore ∧
      (calculateBuffettScore s).profitGrowthScore ≤ 15) ∧
    (0 ≤ (calculateBuffettScore s).debtRatioScore ∧
      (calculateBuffettScore s).debtRatioScore ≤ 10) ∧
    (0 ≤ (calculateBuffettScore s).moatScore ∧
      (calculateBuffettScore s).moatScore ≤ 10) ∧
    (0 ≤ (calculateBuffettScore s).managementScore ∧
      (calculateBuffettScore s).managementScore ≤ 10) ∧
    (0 ≤ (calculateBuffettScore s).valuationScore ∧
      (calculateBuffettScore s).valuationScore ≤ 15) ∧
    (0 ≤ (calculateBuffettScore s).rdScore ∧ (calculateBuffettScore s).rdScore ≤ 5) ∧
    (0 ≤ (calculateBuffettScore s).dividendScore ∧
      (calculateBuffettScore s).dividendScore ≤ 5) ∧
    (0 ≤ (calculateBuffettScore s).repurchaseScore ∧
      (calculateBuffettScore s).repurchaseScore ≤ 5) ∧
    (calculateBuffettScore s).totalScore =
      (calculateBuffettScore s).roeScore + (calculateBuffettScore s).cashFlowScore +
      (calculateBuffettScore s).profitGrowthScore +
      (calculateBuffettScore s).debtRatioScore + (calculateBuffettScore s).moatScore +
      (calculateBuffettScore s).managementScore +
      (calculateBuffettScore s).valuationScore + (calculateBuffettScore s).rdScore +
      (calculateBuffettScore s).dividendScore +
      (calculateBuffettScore s).repurchaseScore := by
  refine ⟨calculateROEScore_le s, calculateCashFlowScore_bounds s,
    calculateProfitGrowthScore_bounds s, calculateDebtRatioScore_bounds s,
    calculateMoatScore_bounds s, calculateManagementScore_bounds s,
    calculateValuationScore_bounds s,
    ⟨by norm_num [calculateBuffettScore, calculateRDScore],
     by norm_num [calculateBuffettScore, calculateRDScore]⟩,
    ⟨by norm_num [calculateBuffettScore, calculateDividendScore],
     by norm_num [calculateBuffettScore, calculateDividendScore]⟩,
    ⟨by norm_num [calculateBuffettScore, calculateRepurchaseScore],
     by norm_num [calculateBuffettScore, calculateRepurchaseScore]⟩, rfl⟩

/-- A stock with five years of uniformly negative (-10%) ROE. -/
def c6negStock : Stock :=
  { baseInfo := plainBase,
    historicalFinaMainData :=
      [⟨2024, true, 0, -10, 0, 0, ""⟩, ⟨2023, true, 0, -10, 0, 0, ""⟩,
       ⟨2022, true, 0, -10, 0, 0, ""⟩, ⟨2021, true, 0, -10, 0, 0, ""⟩,
       ⟨2020, true, 0, -10, 0, 0, ""⟩] }

/-- An annual report with ROE 25%, the given net profit and debt 20%. -/
def c6report (y : Int) (profit : ℚ) : FinaReport := ⟨y, true, 0, 25, profit, 20, ""⟩

/-- A stock scoring high on every decision table: steady 25% ROE, doubling
profits, low debt, a strong-moat industry, positive cash flows, PE below 10. -/
def c6topStock : Stock :=
  { baseInfo := ⟨"", "", GoFloat.fin 5, GoFloat.fin 0, 0, "食品饮料", none⟩,
    historicalFinaMainData :=
      [c6report 2024 16, c6report 2023 8, c6report 2022 4, c6report 2021 2,
       c6report 2020 1],
    historicalCashflowList := [⟨1, 0, 0⟩, ⟨1, 0, 0⟩, ⟨1, 0, 0⟩] }

/-- C6 counterexample: the ROE sub-score of `c6negStock` is -10, outside its
declared bound 0-20, and the total score of `c6topStock` is 102.5, above the
declared maximum of 100 (the sub-score maxima add up to 110). -/
theorem c6_counterexample :
    (calculateBuffettScore c6negStock).roeScore = -10 ∧
    ¬ (0 ≤ (calculateBuffettScore c6negStock).roeScore) ∧
    (calculateBuffettScore c6topStock).totalScore = 205/2 ∧
    ¬ ((calculateBuffettScore c6topStock).totalScore ≤ 100) := by
  have hroeneg : calculateROEScore c6negStock = -10 := by
    simp [calculateROEScore, c6negStock, valueList, List.filter, List.foldl,
      roeVolatilityExceeds]
    norm_num
  have hroe : calculateROEScore c6topStock = 20 := by
    simp [calculateROEScore, c6topStock, c6report, valueList, List.filter,
      List.foldl, roeVolatilityExceeds]
    norm_num
  have hcash : calculateCashFlowScore c6topStock = 15 := by
    simp [calculateCashFlowScore, c6topStock, List.take, List.countP,
      List.countP.go]
  have hprofit : calculateProfitGrowthScore c6topStock = 12 := by
    simp [calculateProfitGrowthScore, c6topStock, c6report, valueList,
      List.filter, adjacentIncreaseCount, growthVolatilitySum, List.zip,
      List.zipWith, List.countP, List.countP.go]
    norm_num
  have hdebt : calculateDebtRatioScore c6topStock = 10 := by
    simp [calculateDebtRatioScore, c6topStock, c6report]
    norm_num
  have hmoat : calculateMoatScore c6topStock = 8 := by
    simp [calculateMoatScore, c6topStock]
    norm_num [min_def]
  have hmgmt : calculateManagementScore c6topStock = 15/2 := by
    simp [calculateManagementScore]
    norm_num
  have hval : calculateValuationScore c6topStock = 15 := by
    norm_num [calculateValuationScore, c6topStock, GoFloat.blt,
      decide_eq_true_eq]
  refine ⟨hroeneg, by rw [show (calculateBuffettScore c6negStock).roeScore =
    calculateROEScore c6negStock from rfl, hroeneg]; norm_num, ?_, ?_⟩
  · show calculateROEScore c6topStock + calculateCashFlowScore c6topStock +
      calculateProfitGrowthScore c6topStock + calculateDebtRatioScore c6topStock +
      calculateMoatScore c6topStock + calculateManagementScore c6topStock +
      calculateValuationScore c6topStock + calculateRDScore c6topStock +
      calculateDividendScore c6topStock + calculateRepurchaseScore c6topStock = 205/2
    rw [hroe, hcash, hprofit, hdebt, hmoat, hmgmt, hval]
    norm_num [calculateRDScore, calculateDividendScore, calculateRepurchaseScore]
  · show ¬ (calculateROEScore c6topStock + calculateCashFlowScore c6topStock +
      calculateProfitGrowthScore c6topStock + calculateDebtRatioScore c6topStock +
      calculateMoatScore c6topStock + calculateManagementScore c6topStock +
      calculateValuationScore c6topStock + calculateRDScore c6topStock +
      calculateDividendScore c6topStock + calculateRepurchaseScore c6topStock ≤ 100)
    rw [hroe, hcash, hprofit, hdebt, hmoat, hmgmt, hval]
    norm_num [calculateRDScore, calculateDividendScore, calculateRepurchaseScore]

/-- The valuation never fails when both resolved year reports exist. -/
theorem computeValuation_isOk (v : ValuationIn) (r1 r2 : FinaReport)
    (h1 : v.lastYearReport = some r1) (h2 : v.beforeLastYearReport = some r2) :
    ∃ out, computeValuation v = .ok out := by
  obtain ⟨b, hb⟩ : ∃ b, baseEPSOf v.epsHistory v.lastYearReport = .ok b := by
    unfold baseEPSOf
    rw [h1]
    split <;> exact ⟨_, rfl⟩
  obtain ⟨lyb, hlyb⟩ : ∃ l, lastYearBaseEPSOf v.epsHistory v.beforeLastYearReport = .ok l := by
    unfold lastYearBaseEPSOf
    split
    · exact ⟨_, rfl⟩
    · rw [h2]
      exact ⟨_, rfl⟩
  rw [h1] at hb
  simp only [computeValuation, rawRightPriceOf, h1, hb, hlyb]
  split_ifs <;> exact ⟨_, rfl⟩

/-- Per-outcome behaviour of the first (chained) unit: it never fails when
the resolved year reports exist, a failed or empty fundamentals fetch leaves
everything zero, a failed PE fetch leaves everything but the fundamentals
zero, a failed PE-median computation leaves the three price fields zero, and
the fetched fundamentals and PE list are stored whenever obtained. -/
theorem unit1_spec (u : Unit1In) (price : GoFloat)
    (hsafe : ∀ hf, u.fina = some hf →
      (getReport hf (u.thisYear - 1)).isSome = true ∧
      (getReport hf (u.thisYear - 2)).isSome = true) :
    ∃ out, unit1 u price = .ok out ∧
      (u.fina = none → out = {}) ∧
      (∀ hf, u.fina = some hf → hf ≠ [] → out.historicalFinaMainData = hf) ∧
      (∀ hf, u.fina = some hf → hf ≠ [] → u.peList = none →
        out.historicalPEList = [] ∧ out.rightPrice = GoFloat.fin 0 ∧
        out.priceSpace = GoFloat.fin 0 ∧ out.lastYearRightPrice = GoFloat.fin 0) ∧
      (∀ hf pl, u.fina = some hf → hf ≠ [] → u.peList = some pl →
        out.historicalPEList = pl) := by
  cases hf : u.fina with
  | none =>
      refine ⟨{}, ?_, ?_, ?_, ?_, ?_⟩ <;> simp [unit1, hf]
  | some l =>
      by_cases hl : l.length = 0
      · refine ⟨{}, ?_, ?_, ?_, ?_, ?_⟩ <;>
          simp_all [unit1, hf, hl, List.length_eq_zero]
      · cases hpe : u.peList with
        | none =>
            refine ⟨⟨l, [], GoFloat.fin 0, GoFloat.fin 0, GoFloat.fin 0⟩,
              ?_, ?_, ?_, ?_, ?_⟩ <;> simp_all [unit1, hf, hl, hpe]
        | some pl =>
            obtain ⟨hr1, hr2⟩ := hsafe l hf
            obtain ⟨r1, h1⟩ := Option.isSome_iff_exists.mp hr1
            obtain ⟨r2, h2⟩ := Option.isSome_iff_exists.mp hr2
            cases hmid : u.midPE with
            | none =>
                refine ⟨⟨l, pl, GoFloat.fin 0, GoFloat.fin 0, GoFloat.fin 0⟩,
                  ?_, ?_, ?_, ?_, ?_⟩ <;> simp_all [unit1, hf, hl, hpe, hmid]
            | some pe =>
                obtain ⟨vout, hv⟩ := computeValuation_isOk
                  ⟨(valueList l FinaReport.epsjb 3).map GoFloat.fin, GoFloat.fin pe,
                    GoFloat.fin (u.avgRevGrowthByYear u.thisYear),
                    GoFloat.fin (u.avgRevGrowthByYear (u.thisYear - 1)),
                    getReport l (u.thisYear - 1), getReport l (u.thisYear - 2),
                    price⟩ r1 r2 h1 h2
                refine ⟨⟨l, pl, vout.rightPrice, vout.priceSpace,
                    vout.lastYearRightPrice⟩, ?_, ?_, ?_, ?_, ?_⟩ <;>
                  simp_all [unit1, hf, hl, hpe, hmid, h1, hv]


/-- Once the first unit has completed, `NewStock` returns a stock whose every
section is determined by the per-provider outcomes: the first unit's fields
come from its output, and each remaining unit's fields hold the fetched value
on success and the zero value on failure. -/
theorem NewStock_fields (b : StockInfo) (inp : NewStockIn) (u : Unit1Out)
    (hu : unit1 (unit1InOf inp) (GoFloat.fin (initialStock b).getPrice) = .ok u) :
    ∃ s, NewStock b inp = .ok s ∧
      s.historicalFinaMainData = u.historicalFinaMainData ∧
      s.historicalPEList = u.historicalPEList ∧
      s.rightPrice = u.rightPrice ∧
      s.priceSpace = u.priceSpace ∧
      s.lastYearRightPrice = u.lastYearRightPrice ∧
      s.valuationMap = inp.valuationMap.getD [] ∧
      s.historicalPrice = inp.historicalPrice.getD [] ∧
      s.historicalVolatility = (match inp.historicalPrice with
        | none => (0 : ℚ)
        | some _ => inp.volatility.getD 0) ∧
      s.companyProfile = inp.companyProfile.getD "" ∧
      s.finaAppointPublishDate = (match inp.finaPubDateList with
        | some (d :: _) => d.appointPublishDate
        | _ => "") ∧
      s.finaActualPublishDate = (match inp.finaPubDateList with
        | some (d :: _) => d.actualPublishDate
        | _ => "") ∧
      s.finaReportDate = (match inp.finaPubDateList with
        | some (d :: _) => d.reportDate
        | _ => "") ∧
      s.orgRatingList = inp.orgRatingList.getD [] ∧
      s.profitPredictList = inp.profitPredictList.getD [] ∧
      s.jzpg = inp.jzpg.getD "" ∧
      s.historicalGincomeList = inp.gincomeList.getD [] ∧
      s.finaReportOpinion = (match inp.gincomeList with
        | some (g :: _) => g.opinionType
        | _ => "") ∧
      s.historicalCashflowList = inp.cashflowList.getD [] ∧
      s.netcashOperate = (match inp.cashflowList with
        | some (cf :: _) => cf.netcashOperate
        | _ => (0 : ℚ)) ∧
      s.netcashInvest = (match inp.cashflowList with
        | some (cf :: _) => cf.netcashInvest
        | _ => (0 : ℚ)) ∧
      s.netcashFinance = (match inp.cashflowList with
        | some (cf :: _) => cf.netcashFinance
        | _ => (0 : ℚ)) ∧
      s.netcashFree = (match inp.cashflowList with
        | some (cf :: _) =>
            if cf.netcashInvest < 0 then cf.netcashOperate + cf.netcashInvest
            else cf.netcashOperate - cf.netcashInvest
        | _ => (0 : ℚ)) ∧
      s.freeHoldersTop10 = inp.freeHolders.getD [] ∧
      s.mainMoneyNetInflows = inp.mainMoneyNetInflows.getD [] := by
  refine ⟨{ applyAllUnits inp u (initialStock b) with
      buffettScore := calculateBuffettScore (applyAllUnits inp u (initialStock b)) },
    ?_, rfl, rfl, rfl, rfl, rfl, rfl, rfl, rfl, rfl, rfl, rfl, rfl, rfl, rfl,
    rfl, rfl, rfl, rfl, rfl, rfl, rfl, rfl, rfl, rfl⟩
  simp only [NewStock, hu]

/-- C3: for every combination of per-provider outcomes the aggregation call
returns a profile without an error (under the data-shape condition that any
fetched fundamentals history resolves a last-year and a before-last-year
annual report — the only situation in which the Go code would panic instead
of returning); each failed fetch leaves exactly its owned sections at their
zero/empty values, while sections owned by successful fetches are populated
with the fetched values — an individual upstream failure never aborts the
aggregate, and within the chained first unit an earlier failure in the chain
leaves the later sections of that chain at their zero values, as the spec's
dependency-chain rule prescribes. -/
theorem c3_partial_failure (b : StockInfo) (inp : NewStockIn)
    (hsafe : ∀ hf, inp.fina = some hf →
      (getReport hf (inp.thisYear - 1)).isSome = true ∧
      (getReport hf (inp.thisYear - 2)).isSome = true) :
    ∃ s : Stock, NewStock b inp = .ok s ∧
      (inp.fina = none → s.historicalFinaMainData = [] ∧ s.historicalPEList = [] ∧
        s.rightPrice = GoFloat.fin 0 ∧ s.priceSpace = GoFloat.fin 0 ∧
        s.lastYearRightPrice = GoFloat.fin 0) ∧
      (∀ hf, inp.fina = some hf → hf ≠ [] → s.historicalFinaMainData = hf) ∧
      (∀ hf, inp.fina = some hf → hf ≠ [] → inp.peList = none →
        s.historicalPEList = [] ∧ s.rightPrice = GoFloat.fin 0 ∧
        s.priceSpace = GoFloat.fin 0 ∧ s.lastYearRightPrice = GoFloat.fin 0) ∧
      (∀ hf pl, inp.fina = some hf → hf ≠ [] → inp.peList = some pl →
        s.historicalPEList = pl) ∧
      (inp.valuationMap = none → s.valuationMap = []) ∧
      (∀ m, inp.valuationMap = some m → s.valuationMap = m) ∧
      (inp.historicalPrice = none → s.historicalPrice = [] ∧
        s.historicalVolatility = 0) ∧
      (∀ hp, inp.historicalPrice = some hp → s.historicalPrice = hp) ∧
      (∀ hp v, inp.historicalPrice = some hp → inp.volatility = some v →
        s.historicalVolatility = v) ∧
      (inp.companyProfile = none → s.companyProfile = "") ∧
      (∀ c, inp.companyProfile = some c → s.companyProfile = c) ∧
      (inp.finaPubDateList = none → s.finaAppointPublishDate = "" ∧
        s.finaActualPublishDate = "" ∧ s.finaReportDate = "") ∧
      (∀ d t, inp.finaPubDateList = some (d :: t) →
        s.finaAppointPublishDate = d.appointPublishDate ∧
        s.finaActualPublishDate = d.actualPublishDate ∧
        s.finaReportDate = d.reportDate) ∧
      (inp.orgRatingList = none → s.orgRatingList = []) ∧
      (∀ l, inp.orgRatingList = some l → s.orgRatingList = l) ∧
      (inp.profitPredictList = none → s.profitPredictList = []) ∧
      (∀ l, inp.profitPredictList = some l → s.profitPredictList = l) ∧
      (inp.jzpg = none → s.jzpg = "") ∧
      (∀ j, inp.jzpg = some j → s.jzpg = j) ∧
      (inp.gincomeList = none → s.historicalGincomeList = [] ∧
        s.finaReportOpinion = "") ∧
      (∀ l, inp.gincomeList = some l → s.historicalGincomeList = l) ∧
      (inp.cashflowList = none → s.historicalCashflowList = [] ∧
        s.netcashOperate = 0 ∧ s.netcashInvest = 0 ∧ s.netcashFinance = 0 ∧
        s.netcashFree = 0) ∧
      (∀ l, inp.cashflowList = some l → s.historicalCashflowList = l) ∧
      (inp.freeHolders = none → s.freeHoldersTop10 = []) ∧
      (∀ l, inp.freeHolders = some l → s.freeHoldersTop10 = l) ∧
      (inp.mainMoneyNetInflows = none → s.mainMoneyNetInflows = []) ∧
      (∀ l, inp.mainMoneyNetInflows = some l → s.mainMoneyNetInflows = l) := by
  obtain ⟨u, hu, hnone, hfina, hpeNone, hpeSome⟩ :=
    unit1_spec (unit1InOf inp) (GoFloat.fin (initialStock b).getPrice) hsafe
  obtain ⟨s, hok, hfd, hpel, hrp, hps, hlyrp, hvm, hhp, hvol, hcp, hd1, hd2, hd3,
    horg, hpp, hjz, hgl, hop, hcl, hco, hci, hcf, hfree, hfh, hmm⟩ :=
    NewStock_fields b inp u hu
  refine ⟨s, hok, ?_, ?_, ?_, ?_, ?_, ?_, ?_, ?_, ?_, ?_, ?_, ?_, ?_, ?_, ?_,
    ?_, ?_, ?_, ?_, ?_, ?_, ?_, ?_, ?_, ?_, ?_, ?_⟩
  · intro h
    have hz := hnone h
    subst hz
    exact ⟨hfd, hpel, hrp, hps, hlyrp⟩
  · intro hf hs hne
    rw [hfd]
    exact hfina hf hs hne
  · intro hf hs hne hpl
    obtain ⟨h1, h2, h3, h4⟩ := hpeNone hf hs hne hpl
    rw [hpel, hrp, hps, hlyrp]
    exact ⟨h1, h2, h3, h4⟩
  · intro hf pl hs hne hpl
    rw [hpel]
    exact hpeSome hf pl hs hne hpl
  · intro h
    rw [hvm, h]
    rfl
  · intro m h
    rw [hvm, h]
    rfl
  · intro h
    rw [hhp, hvol, h]
    exact ⟨rfl, rfl⟩
  · intro hp h
    rw [hhp, h]
    rfl
  · intro hp v h hv
    rw [hvol, h, hv]
    rfl
  · intro h
    rw [hcp, h]
    rfl
  · intro c h
    rw [hcp, h]
    rfl
  · intro h
    rw [hd1, hd2, hd3, h]
    exact ⟨rfl, rfl, rfl⟩
  · intro d t h
    rw [hd1, hd2, hd3, h]
    exact ⟨rfl, rfl, rfl⟩
  · intro h
    rw [horg, h]
    rfl
  · intro l h
    rw [horg, h]
    rfl
  · intro h
    rw [hpp, h]
    rfl
  · intro l h
    rw [hpp, h]
    rfl
  · intro h
    rw [hjz, h]
    rfl
  · intro j h
    rw [hjz, h]
    rfl
  · intro h
    rw [hgl, hop, h]
    exact ⟨rfl, rfl⟩
  · intro l h
    rw [hgl, h]
    rfl
  · intro h
    rw [hcl, hco, hci, hcf, hfree, h]
    exact ⟨rfl, rfl, rfl, rfl, rfl⟩
  · intro l h
    rw [hcl, h]
    rfl
  · intro h
    rw [hfh, h]
    rfl
  · intro l h
    rw [hfh, h]
    rfl
  · intro h
    rw [hmm, h]
    rfl
  · intro l h
    rw [hmm, h]
    rfl

/-- The fetch outcomes of the C3 witness: the fundamentals, company-profile
and cash-flow fetches fail, every other provider succeeds. -/
def c3inp : NewStockIn :=
  { fina := none, peList := some [12], midPE := some 12,
    avgRevGrowthByYear := fun _ => 0, thisYear := 2026,
    valuationMap := some [("市盈率", "低估")], historicalPrice := some [10],
    volatility := some 1, companyProfile := none,
    finaPubDateList := some [⟨"a", "b", "c"⟩], orgRatingList := some ["买入"],
    profitPredictList := some ["p"], jzpg := some "高",
    gincomeList := some [⟨100, 10, "标准无保留意见"⟩], cashflowList := none,
    freeHolders := some ["h1"], mainMoneyNetInflows := some [5] }

/-- Witness for C3: with three of the twelve fetches failing the aggregation
still returns a stock; the failed sections are empty/zero and the successful
ones carry the fetched values. -/
theorem c3_witness :
    ∃ s, NewStock plainBase c3inp = .ok s ∧
      s.historicalFinaMainData = [] ∧ s.rightPrice = GoFloat.fin 0 ∧
      s.valuationMap = [("市盈率", "低估")] ∧ s.companyProfile = "" ∧
      s.historicalCashflowList = [] ∧ s.netcashFree = 0 ∧
      s.freeHoldersTop10 = ["h1"] ∧ s.historicalVolatility = 1 := by
  obtain ⟨s, hok, hfina, _, _, _, _, hvm, _, _, hvol, hcp, _, _, _, _, _, _, _,
    _, _, _, _, hcash, _, _, hfh, _, _⟩ :=
    c3_partial_failure plainBase c3inp (by intro hf h; simp [c3inp] at h)
  obtain ⟨hf1, _, hf3, _, _⟩ := hfina rfl
  obtain ⟨hc1, _, _, _, hc5⟩ := hcash rfl
  exact ⟨s, hok, hf1, hf3, hvm _ rfl, hcp rfl, hc1, hc5, hfh _ rfl,
    hvol _ _ rfl rfl⟩

/-- A stock with ROE weight 1, tagged by its quoted price. -/
def c8stock (p : ℚ) : Stock :=
  { baseInfo := ⟨"", "", GoFloat.fin 0, GoFloat.fin 0, 1, "", some p⟩ }

/-- C8 counterexample: `sort.Slice` guarantees only a comparator-sorted
permutation ("the sort is not guaranteed to be stable"), so for two distinct
stocks with equal ROE weight the swapped output is an admissible outcome of
`SortByROE` — and it does not retain the original relative order of the
equal-key elements.  The claimed stability therefore does not hold of the
code's sort. -/
theorem c8_counterexample :
    sortByROEOutcome [c8stock 1, c8stock 2] [c8stock 2, c8stock 1] ∧
    ¬ stableFor (fun x => x.baseInfo.roeWeight)
        [c8stock 1, c8stock 2] [c8stock 2, c8stock 1] := by
  constructor
  · constructor
    · exact List.Perm.swap _ _ _
    · simp [c8stock]
  · intro h
    have h1 := h 1
    simp only [stableFor, c8stock, List.filter] at h1
    norm_num at h1

/-- C8 amended: every outcome admitted by the unstable `sort.Slice` contract
is a permutation of the input arranged in descending order of the chosen key
(ROE weight, or price-gap percentage on finite gaps); stability is NOT
guaranteed — the code uses `sort.Slice`, not `sort.SliceStable`. -/
theorem c8_amended :
    (∀ s out : List Stock, sortByROEOutcome s out → out.Perm s ∧
      out.Pairwise (fun a b => b.baseInfo.roeWeight ≤ a.baseInfo.roeWeight)) ∧
    (∀ s out : List Stock, sortByPriceSpaceOutcome s out →
      (∀ x ∈ out, x.priceSpace.isFinite = true) → out.Perm s ∧
      out.Pairwise (fun a b => b.priceSpace.toRat ≤ a.priceSpace.toRat)) := by
  constructor
  · intro s out hrel
    refine ⟨hrel.1, hrel.2.imp ?_⟩
    intro a b hab
    exact not_lt.mp (fun hlt => hab (by simpa using hlt))
  · intro s out hrel hfin
    refine ⟨hrel.1, List.Pairwise.imp_of_mem ?_ hrel.2⟩
    intro a b ha hb hab
    obtain ⟨x, hx⟩ : ∃ x, a.priceSpace = GoFloat.fin x := by
      have := hfin a ha
      cases hps : a.priceSpace <;> simp_all [GoFloat.isFinite]
    obtain ⟨y, hy⟩ : ∃ y, b.priceSpace = GoFloat.fin y := by
      have := hfin b hb
      cases hps : b.priceSpace <;> simp_all [GoFloat.isFinite]
    simp only [hx, hy] at hab
    rw [hx, hy]
    simp only [GoFloat.toRat]
    exact not_lt.mp (fun hlt => hab (by simpa using hlt))

/-- Witness for C8 (amended): a two-element list with strictly decreasing ROE
weights sorted into itself satisfies the contract, and the theorem yields the
descending arrangement. -/
theorem c8_witness :
    ([c8stock 1].Perm [c8stock 1] ∧
      [c8stock 1].Pairwise
        (fun a b => b.baseInfo.roeWeight ≤ a.baseInfo.roeWeight)) := by
  have h := c8_amended.1 [c8stock 1] [c8stock 1]
    ⟨List.Perm.refl _, by simp⟩
  exact h
